import Mathlib

/-!
Verification of the real-time multimodal processing orchestrator of the
Cognitive-echo repository (OpenAIService / SocketService and the speech
HTTP routes).  JavaScript is embedded shallowly: machine numbers and JS
floats become `Int`/`Rat`, fallible operations become `Except`, the
remote AI calls (Whisper, GPT, DALL-E) and the database become explicit
oracle parameters, and the socket event emissions become an explicit
trace of `Event`s returned by each operation.
-/

namespace CognitiveEcho

/-- A word-level timing record as returned by the Whisper verbose
transcription (`word`, `start`, `end`); the `end` field is called
`stop` here because `end` is a Lean keyword. -/
structure Word where
  word : String
  start : Rat
  stop : Rat
deriving DecidableEq, Repr

/-- `OpenAIService.calculateTranscriptionConfidence`: per word, compare
the observed duration `end - start` with an expected duration of 0.1
seconds per character, cap the ratio at 1, average over all words and
clamp the average into [0,1]; 0 when the word list is empty.  JS float
arithmetic is embedded as exact rational arithmetic. -/
def calculateTranscriptionConfidence (words : List Word) : Rat :=
  if words.length = 0 then 0
  else
    let avgConfidence :=
      (words.foldl
        (fun sum word =>
          let wordLength := word.stop - word.start
          let expectedLength := (word.word.length : Rat) * (1 / 10)
          let confidence := min 1 (expectedLength / wordLength)
          sum + confidence) 0) / (words.length : Rat)
    max 0 (min 1 avgConfidence)

/-- The per-word capped ratio used by
`calculateTranscriptionConfidence`: expected duration (0.1 s per
character) over observed duration, capped at 1. -/
def wordConfidence (word : Word) : Rat :=
  min 1 (((word.word.length : Rat) * (1 / 10)) / (word.stop - word.start))

/-- The analysis record produced by
`OpenAIService.formatAnalysisResponse` from the GPT reply (fields
already defaulted by the permissive parsing). -/
structure Analysis where
  predictions : List String
  confidence : Rat
  intendedMeaning : String
  assistanceLevel : String
  visualAidSuggested : Bool
  visualConcept : Option String
  audioHintSuggested : Bool
  audioHintText : Option String
  emotionalContext : String
  recommendations : String
deriving DecidableEq, Repr

/-- One entry of a per-user conversation context, as pushed by
`OpenAIService.processMultimodalInput`:
`{ transcription, analysis, timestamp }`.  Timestamps are embedded as
integer milliseconds. -/
structure ContextEntry where
  transcription : String
  analysis : Analysis
  timestamp : Int
deriving DecidableEq, Repr

/-- `OpenAIService.updateConversationContext` restricted to the entry list of one user: push the new entry, and when the list now has more than 10
entries keep only the last 10 (`context.slice(-10)`). -/
def updateConversationContext (context : List ContextEntry)
    (data : ContextEntry) : List ContextEntry :=
  let context := context ++ [data]
  if context.length > 10 then context.drop (context.length - 10)
  else context

/-- The map `OpenAIService.conversationContexts` (userId to entry
list), embedded as an association list with distinct keys kept
implicit. -/
abbrev ContextMap := List (String × List ContextEntry)

/-- `Map.get(userId) || []`. -/
def getContext (m : ContextMap) (userId : String) : List ContextEntry :=
  ((m.find? (fun p => p.1 = userId)).map (fun p => p.2)).getD []

/-- `Map.set(userId, context)`: overwrite the entry for the key, or
append a new one. -/
def setContext (m : ContextMap) (userId : String)
    (context : List ContextEntry) : ContextMap :=
  if (m.find? (fun p => p.1 = userId)).isSome then
    m.map (fun p => if p.1 = userId then (userId, context) else p)
  else m ++ [(userId, context)]

/-- `OpenAIService.updateConversationContext` on the whole map. -/
def updateConversationContextMap (m : ContextMap) (userId : String)
    (data : ContextEntry) : ContextMap :=
  setContext m userId (updateConversationContext (getContext m userId) data)

/-- `OpenAIService.cleanupContexts`: for every user keep only entries
with `now - timestamp < maxAge`, deleting the per-user list entirely when
nothing is left.  The source hard-codes `maxAge = 30 * 60 * 1000`
(milliseconds) at its single call site; the sweep body is embedded with
`maxAge` as a parameter so that it can also be inspected at other ages
(the `Sweep(maxAgeSeconds)` operation of the spec). -/
def cleanupContexts (now maxAge : Int) (m : ContextMap) : ContextMap :=
  (m.map (fun p =>
      (p.1, p.2.filter (fun item => now - item.timestamp < maxAge)))).filter
    (fun p => ¬ p.2.isEmpty)

/-- The `maxAge` value hard-coded in `OpenAIService.cleanupContexts`:
30 minutes in milliseconds. -/
def cleanupMaxAge : Int := 30 * 60 * 1000

/-- One operation on the conversation-context store: an append done by
a successful analysis, or a periodic sweep. -/
inductive ContextOp where
  | append (userId : String) (data : ContextEntry)
  | sweep (now maxAge : Int)

/-- Apply one operation to the context map. -/
def applyContextOp (m : ContextMap) : ContextOp → ContextMap
  | ContextOp.append userId data => updateConversationContextMap m userId data
  | ContextOp.sweep now maxAge => cleanupContexts now maxAge m

/-- Run a sequence of store operations from the empty map (the state of
`OpenAIService.conversationContexts` at construction). -/
def runContextOps (ops : List ContextOp) : ContextMap :=
  ops.foldl applyContextOp []

/-! ## Sessions and the session store -/

/-- A session row of the Prisma `session` table, restricted to the
fields read or written by the verified operations. -/
structure Session where
  id : String
  userId : String
  startedAt : Int
  endedAt : Option Int
  duration : Option Int
  transcript : String
  predictions : List String
  confidence : Rat
  completedSentences : List String
  successfulPredictions : Nat
  totalPredictions : Nat
deriving DecidableEq, Repr

/-- The session table, embedded as a list of rows (ids assumed
distinct, as Prisma enforces for a primary key). -/
abbrev SessionDb := List Session

/-- `prisma.session.findUnique({ where: { id } })`. -/
def findSession (db : SessionDb) (sessionId : String) : Option Session :=
  db.find? (fun s => s.id = sessionId)

/-- `prisma.session.findFirst({ where: { id, userId } })` — the
ownership-checking lookup used by the HTTP routes. -/
def findOwnedSession (db : SessionDb) (sessionId userId : String) :
    Option Session :=
  db.find? (fun s => s.id = sessionId ∧ s.userId = userId)

/-- Replace the row with the given id by `f` applied to it. -/
def mapSession (db : SessionDb) (sessionId : String)
    (f : Session → Session) : SessionDb :=
  db.map (fun s => if s.id = sessionId then f s else s)

/-- The feedback counter update shared by `SocketService.processFeedback`
and `POST /api/speech/feedback`:
`successfulPredictions + (predictionAccepted ? 1 : 0)` and
`totalPredictions + 1`. -/
def recordFeedback (predictionAccepted : Bool) (s : Session) : Session :=
  { s with
    successfulPredictions :=
      s.successfulPredictions + (if predictionAccepted then 1 else 0)
    totalPredictions := s.totalPredictions + 1 }

/-- `SocketService.processFeedback` restricted to the session table:
when `sessionId` resolves to a session, apply the counter update,
otherwise leave the table unchanged. -/
def processFeedback (sessionId : String) (predictionAccepted : Bool)
    (db : SessionDb) : SessionDb :=
  match findSession db sessionId with
  | none => db
  | some _ => mapSession db sessionId (recordFeedback predictionAccepted)

/-- Run a sequence of feedback events against the counters of one session,
starting from the zero counters a fresh session gets in
`startNewSession`. -/
def runFeedback (events : List Bool) (s : Session) : Session :=
  events.foldl (fun s a => recordFeedback a s) s

/-- `JS truthiness of a nullable string`: `null`/`undefined` and the
empty string are falsy, every other string truthy. -/
def jsTruthy : Option String → Bool
  | none => false
  | some s => ¬ s = ""

/-- `a || b` on a possibly-absent string (used by the update route
for `transcript || existingSession.transcript`). -/
def jsOrStr (a : Option String) (b : String) : String :=
  match a with
  | none => b
  | some s => if s = "" then b else s

/-- `a || b` on a possibly-absent array: in JS every array (also the
empty one) is truthy, so only an absent field falls back. -/
def jsOrList (a : Option (List String)) (b : List String) : List String :=
  a.getD b

/-- The request body of `PUT /api/speech/session/:sessionId/update`. -/
structure UpdateBody where
  transcript : Option String
  predictions : Option (List String)
  completedSentences : Option (List String)
  confidence : Option Rat
deriving DecidableEq, Repr

/-- Outcome of an HTTP route, reduced to the status code it answers
with. -/
inductive RouteStatus where
  | ok
  | notFound
deriving DecidableEq, Repr

/-- `PUT /api/speech/session/:sessionId/update`: look the session up
under both its id and the id of the authenticated user; answer 404 without
touching the table when that fails, otherwise merge the body into the
row (`field || existing` per field, `confidence !== undefined`
explicitly). -/
def updateSessionRoute (userId sessionId : String) (body : UpdateBody)
    (db : SessionDb) : RouteStatus × SessionDb :=
  match findOwnedSession db sessionId userId with
  | none => (RouteStatus.notFound, db)
  | some existingSession =>
    (RouteStatus.ok,
      mapSession db sessionId (fun _ =>
        { existingSession with
          transcript := jsOrStr body.transcript existingSession.transcript
          predictions := jsOrList body.predictions existingSession.predictions
          completedSentences :=
            jsOrList body.completedSentences existingSession.completedSentences
          confidence := body.confidence.getD existingSession.confidence }))

/-- `SocketService.updateSessionData` — the per-turn session update of
the pipeline: a bare `prisma.session.update({ where: { id } })` with no
ownership check; Prisma rejects only an unknown id. -/
def updateSessionData (sessionId : String) (transcription : String)
    (predictions : List String) (confidence : Rat) (db : SessionDb) :
    Except String SessionDb :=
  match findSession db sessionId with
  | none => Except.error "Record to update not found"
  | some _ =>
    Except.ok (mapSession db sessionId (fun s =>
      { s with
        transcript := transcription
        predictions := predictions
        confidence := confidence }))

/-- What `POST /api/speech/session/:sessionId/end` reports back, beside
the updated table: its status, whether the Memory-Garden artwork
generation was attempted, and whether a garden row was created. -/
structure EndResult where
  status : RouteStatus
  artworkTriggered : Bool
  memoryGardenCreated : Bool
deriving DecidableEq, Repr

/-- `POST /api/speech/session/:sessionId/end`: ownership-checked
lookup; on success store `endedAt`, `duration` (floor of the
millisecond difference over 1000) and the `completedSentences` of the body
(defaulted to `[]`), then — only when that list has at least 3 entries
— attempt the Memory-Garden artwork whose remote outcome is the
`artResult` oracle; an artwork failure is caught and the route still
answers ok. -/
def endSessionRoute (userId sessionId : String)
    (completedSentences : Option (List String)) (endedAt : Int)
    (artResult : Except String String) (db : SessionDb) :
    EndResult × SessionDb :=
  match findOwnedSession db sessionId userId with
  | none =>
    ({ status := RouteStatus.notFound, artworkTriggered := false,
       memoryGardenCreated := false }, db)
  | some existingSession =>
    let cs := completedSentences.getD []
    let duration := Int.fdiv (endedAt - existingSession.startedAt) 1000
    let db := mapSession db sessionId (fun s =>
      { s with
        endedAt := some endedAt
        duration := some duration
        completedSentences := cs })
    if cs.length ≥ 3 then
      ({ status := RouteStatus.ok, artworkTriggered := true,
         memoryGardenCreated := artResult.isOk }, db)
    else
      ({ status := RouteStatus.ok, artworkTriggered := false,
         memoryGardenCreated := false }, db)

/-- `SocketService.endSession`: `findUnique` by id only (throws
`Session not found` on a miss), then store `endedAt` and the floored
duration and update the daily progress aggregate.  This path contains
no Memory-Garden call at all, which the constantly-false
`artworkTriggered` component records. -/
def endSession (sessionId : String) (endedAt : Int) (db : SessionDb) :
    Except String (Bool × SessionDb) :=
  match findSession db sessionId with
  | none => Except.error "Session not found"
  | some session =>
    let duration := Int.fdiv (endedAt - session.startedAt) 1000
    Except.ok (false,
      mapSession db sessionId (fun s =>
        { s with endedAt := some endedAt, duration := some duration }))

/-! ## The real-time turn pipeline (`SocketService.processSpeechInput`) -/

/-- The verbose-JSON reply of the Whisper transcription call (the
remote part of `OpenAIService.transcribeAudio`). -/
structure WhisperResponse where
  text : String
  words : List Word
  language : String
  duration : Rat
deriving DecidableEq, Repr

/-- The record `OpenAIService.transcribeAudio` returns on success. -/
structure TranscriptionResult where
  text : String
  words : List Word
  language : String
  duration : Rat
  confidence : Rat
deriving DecidableEq, Repr

/-- `OpenAIService.transcribeAudio`, with the remote Whisper call as an
oracle: on success attach the derived confidence, on failure rethrow
with the `Speech transcription failed:` prefix. -/
def transcribeAudio (resp : Except String WhisperResponse) :
    Except String TranscriptionResult :=
  match resp with
  | Except.error msg => Except.error ("Speech transcription failed: " ++ msg)
  | Except.ok t =>
    Except.ok
      { text := t.text, words := t.words, language := t.language,
        duration := t.duration,
        confidence := calculateTranscriptionConfidence t.words }

/-- `OpenAIService.processMultimodalInput` with the GPT call (and the
preceding user-profile lookup) as an oracle already shaped by
`formatAnalysisResponse`: on success the conversation context gains one
entry before the analysis is returned; on failure the context is left
alone and the error is rethrown with the `AI processing failed:`
prefix. -/
def processMultimodalInput (analyzeResult : Except String Analysis)
    (transcriptionText : String) (timestamp : Int)
    (contexts : List ContextEntry) :
    Except String Analysis × List ContextEntry :=
  match analyzeResult with
  | Except.error msg => (Except.error ("AI processing failed: " ++ msg), contexts)
  | Except.ok analysis =>
    (Except.ok analysis,
      updateConversationContext contexts
        { transcription := transcriptionText, analysis := analysis,
          timestamp := timestamp })

/-- `OpenAIService.buildDallePrompt`, with the constant template text
abbreviated. -/
def buildDallePrompt (concept : String) : String :=
  "Simple, clear illustration of " ++ concept ++
    ". Medical/therapeutic style, high contrast, easy to understand."

/-- The record `OpenAIService.generateVisualAid` returns on success. -/
structure VisualAid where
  url : String
  prompt : String
  concept : String
deriving DecidableEq, Repr

/-- `OpenAIService.generateVisualAid` with the DALL-E call as an oracle
returning the image URL. -/
def generateVisualAid (concept : String) (resp : Except String String) :
    Except String VisualAid :=
  match resp with
  | Except.error msg => Except.error ("Visual aid generation failed: " ++ msg)
  | Except.ok url =>
    Except.ok { url := url, prompt := buildDallePrompt concept, concept := concept }

/-- The socket events a turn can emit towards its client, with the
payload fields the verified claims talk about. -/
inductive Event where
  | processing_busy (message : String)
  | processing_started (timestamp : Int)
  | transcription_ready (text : String) (confidence : Rat) (words : List Word)
  | predictions_ready (predictions : List String) (confidence : Rat)
      (intendedMeaning : String) (assistanceLevel : String)
      (emotionalContext : String)
  | visual_aid_ready (imageUrl : String) (concept : String) (prompt : String)
  | audio_hint_ready (text : String) (priority : String)
  | processing_complete (timestamp : Int)
  | processing_error (error : String)
deriving DecidableEq, Repr

/-- Is this a `processing_complete` event? -/
def Event.isComplete : Event → Bool
  | Event.processing_complete _ => true
  | _ => false

/-- Is this a `processing_error` event? -/
def Event.isError : Event → Bool
  | Event.processing_error _ => true
  | _ => false

/-- Is this a `visual_aid_ready` event? -/
def Event.isVisualAid : Event → Bool
  | Event.visual_aid_ready _ _ _ => true
  | _ => false

/-- Is this a `predictions_ready` event? -/
def Event.isPredictions : Event → Bool
  | Event.predictions_ready _ _ _ _ _ => true
  | _ => false

/-- The five event kinds named by the expected-order scenario of the spec
(`processing_started`, `transcription_ready`, `predictions_ready`,
`visual_aid_ready`, `processing_complete`). -/
def Event.isCore : Event → Bool
  | Event.processing_busy _ => false
  | Event.audio_hint_ready _ _ => false
  | Event.processing_error _ => false
  | _ => true

/-- The per-user socket state the pipeline reads and writes: the
`processingQueue` membership for this user, the conversation
context list of this user, and `socket.sessionId`. -/
structure UserState where
  processing : Bool
  contexts : List ContextEntry
  sessionId : Option String
deriving DecidableEq, Repr

/-- One `process_speech` payload (audio and video bytes are opaque and
omitted; only the client timestamp is observable in the trace). -/
structure SpeechData where
  timestamp : Int
deriving DecidableEq, Repr

/-- The outcomes of the remote calls and clock reads one turn can make:
Whisper, user lookup + GPT analysis, DALL-E, the per-turn session
update, the `new Date()` stored in the context entry and the
`Date.now()` of the `finally` block. -/
structure Oracles where
  transcribe : Except String WhisperResponse
  analyze : Except String Analysis
  visual : Except String String
  sessionUpdate : Except String Unit
  analysisTimestamp : Int
  completeTime : Int
deriving Repr

/-- The `try` body of `SocketService.processSpeechInput`, entered with
the processing flag already set: run the stages in order, collecting
the emitted events; the `Option String` is the exception that escapes
the body (`none` when it runs to completion).  A visual-aid failure is
caught locally and only skips its event; a transcription, analysis or
session-update failure aborts the remaining stages. -/
def runPipeline (st : UserState) (d : SpeechData) (o : Oracles) :
    List Event × UserState × Option String :=
  let evStarted := Event.processing_started d.timestamp
  match transcribeAudio o.transcribe with
  | Except.error msg => ([evStarted], st, some msg)
  | Except.ok transcriptionResult =>
    let evTranscription := Event.transcription_ready transcriptionResult.text
      transcriptionResult.confidence transcriptionResult.words
    match processMultimodalInput o.analyze transcriptionResult.text
        o.analysisTimestamp st.contexts with
    | (Except.error msg, contexts) =>
      ([evStarted, evTranscription], { st with contexts := contexts }, some msg)
    | (Except.ok analysis, contexts) =>
      let st := { st with contexts := contexts }
      let evPredictions := Event.predictions_ready analysis.predictions
        analysis.confidence analysis.intendedMeaning analysis.assistanceLevel
        analysis.emotionalContext
      let visualEvents :=
        if analysis.visualAidSuggested && jsTruthy analysis.visualConcept then
          match generateVisualAid (analysis.visualConcept.getD "") o.visual with
          | Except.error _ => []
          | Except.ok visualAid =>
            [Event.visual_aid_ready visualAid.url visualAid.concept
              visualAid.prompt]
        else []
      let audioEvents :=
        if analysis.audioHintSuggested && jsTruthy analysis.audioHintText then
          [Event.audio_hint_ready (analysis.audioHintText.getD "")
            (if analysis.assistanceLevel = "high" then "immediate" else "gentle")]
        else []
      let events := [evStarted, evTranscription, evPredictions] ++
        visualEvents ++ audioEvents
      if jsTruthy st.sessionId then
        match o.sessionUpdate with
        | Except.error msg => (events, st, some msg)
        | Except.ok _ => (events, st, none)
      else (events, st, none)

/-- The `finally` block of `processSpeechInput` followed by the
`catch` of the `process_speech` handler: always clear the processing flag
and emit `processing_complete`, then surface a still-pending exception
as a `processing_error` event. -/
def finishTurn (completeTime : Int)
    (r : List Event × UserState × Option String) : List Event × UserState :=
  (r.1 ++ [Event.processing_complete completeTime] ++
      (match r.2.2 with
        | none => []
        | some msg => [Event.processing_error msg]),
    { r.2.1 with processing := false })

/-- `SocketService.processSpeechInput` as seen through the
`process_speech` handler of `handleConnection`: reject with
`processing_busy` while the per-user flag is set; otherwise set the flag,
run the pipeline body, and let `finishTurn` do the guaranteed cleanup
and error reporting. -/
def handleProcessSpeech (st : UserState) (d : SpeechData) (o : Oracles) :
    List Event × UserState :=
  if st.processing then
    ([Event.processing_busy "Still processing previous input"], st)
  else
    finishTurn o.completeTime (runPipeline { st with processing := true } d o)

/-- The session row created by `SocketService.startNewSession` /
`POST /api/speech/session/start`: empty transcript and predictions, no
completed sentences, both prediction counters zero. -/
def startNewSession (id userId : String) (startedAt : Int) : Session :=
  { id := id, userId := userId, startedAt := startedAt, endedAt := none,
    duration := none, transcript := "", predictions := [], confidence := 0,
    completedSentences := [], successfulPredictions := 0,
    totalPredictions := 0 }

/-- The bound carried through every conversation-context store
operation. -/
def CtxBounded (m : ContextMap) : Prop := ∀ p ∈ m, p.2.length ≤ 10

/-! ## Sample data for concrete evaluations -/

/-- A sample analysis reply (visual aid suggested for "park"). -/
def sampleAnalysis : Analysis :=
  { predictions := ["walk", "park"], confidence := 1,
    intendedMeaning := "I went for a walk in the park",
    assistanceLevel := "medium", visualAidSuggested := true,
    visualConcept := some "park", audioHintSuggested := false,
    audioHintText := none, emotionalContext := "calm",
    recommendations := "" }

/-- A sample transcribed word. -/
def sampleWord : Word := { word := "hi", start := 0, stop := 1 }

/-- A sample Whisper reply. -/
def sampleWhisper : WhisperResponse :=
  { text := "I went park", words := [sampleWord], language := "en",
    duration := 1 }

/-- Oracles for a turn in which every remote call succeeds. -/
def sampleOracles : Oracles :=
  { transcribe := Except.ok sampleWhisper,
    analyze := Except.ok sampleAnalysis, visual := Except.ok "imgurl",
    sessionUpdate := Except.ok (), analysisTimestamp := 100,
    completeTime := 200 }

/-- Oracles for a turn whose transcription call fails. -/
def failOracles : Oracles :=
  { sampleOracles with transcribe := Except.error "boom" }

/-- A sample conversation-context entry. -/
def sampleEntry : ContextEntry :=
  { transcription := "hi", analysis := sampleAnalysis, timestamp := 50 }

/-- A session owned by user "userB". -/
def otherUsersSession : Session :=
  { id := "s1", userId := "userB", startedAt := 0, endedAt := none,
    duration := none, transcript := "old", predictions := [],
    confidence := 0, completedSentences := [], successfulPredictions := 0,
    totalPredictions := 0 }

/-- A session that already holds three completed sentences. -/
def richSession : Session :=
  { id := "s2", userId := "userB", startedAt := 0, endedAt := none,
    duration := none, transcript := "", predictions := [], confidence := 0,
    completedSentences := ["a", "b", "c"], successfulPredictions := 0,
    totalPredictions := 0 }

/-- A session used to exercise the feedback counters. -/
def feedbackSession : Session :=
  { id := "s3", userId := "userC", startedAt := 0, endedAt := none,
    duration := none, transcript := "", predictions := [], confidence := 0,
    completedSentences := [], successfulPredictions := 2,
    totalPredictions := 5 }

/-! ## Helper lemmas -/

lemma foldl_add_map_sum (f : Word → Rat) :
    ∀ (l : List Word) (init : Rat),
      l.foldl (fun sum w => sum + f w) init = init + (l.map f).sum := by
  intro l
  induction l with
  | nil => intro init; simp
  | cons a t ih =>
    intro init
    simp only [List.foldl_cons, List.map_cons, List.sum_cons, ih]
    ring

lemma updateConversationContext_length_le (ctx : List ContextEntry)
    (d : ContextEntry) : (updateConversationContext ctx d).length ≤ 10 := by
  simp only [updateConversationContext]
  split <;> simp_all
  omega

lemma mem_setContext {m : ContextMap} {u : String}
    {ctx : List ContextEntry} {p : String × List ContextEntry}
    (hp : p ∈ setContext m u ctx) : p ∈ m ∨ p.2 = ctx := by
  simp only [setContext] at hp
  split at hp
  · rcases List.mem_map.mp hp with ⟨q, hq, hpq⟩
    by_cases hqu : q.1 = u
    · right; simp [hqu] at hpq; simp [← hpq]
    · left; simp [hqu] at hpq; simpa [hpq] using hq
  · rcases List.mem_append.mp hp with h | h
    · left; exact h
    · right; simp at h; simp [h]

lemma mem_cleanupContexts {now maxAge : Int} {m : ContextMap}
    {p : String × List ContextEntry}
    (hp : p ∈ cleanupContexts now maxAge m) :
    ∃ q ∈ m, p = (q.1, q.2.filter (fun item => now - item.timestamp < maxAge)) := by
  simp only [cleanupContexts] at hp
  have hp' := List.mem_of_mem_filter hp
  rcases List.mem_map.mp hp' with ⟨q, hq, hpq⟩
  exact ⟨q, hq, hpq.symm⟩

lemma ctxBounded_apply {m : ContextMap} (h : CtxBounded m)
    (op : ContextOp) : CtxBounded (applyContextOp m op) := by
  cases op with
  | append u d =>
    intro p hp
    rcases mem_setContext hp with h' | h'
    · exact h p h'
    · rw [h']; exact updateConversationContext_length_le _ _
  | sweep now maxAge =>
    intro p hp
    rcases mem_cleanupContexts hp with ⟨q, hq, hpq⟩
    calc p.2.length = (q.2.filter _).length := by rw [hpq]
      _ ≤ q.2.length := List.length_filter_le _ _
      _ ≤ 10 := h q hq

lemma ctxBounded_runContextOps (ops : List ContextOp) :
    CtxBounded (runContextOps ops) := by
  suffices h : ∀ m, CtxBounded m → CtxBounded (ops.foldl applyContextOp m) by
    exact h [] (by intro p hp; simp at hp)
  induction ops with
  | nil => intro m hm; exact hm
  | cons op rest ih => intro m hm; exact ih _ (ctxBounded_apply hm op)

lemma confidence_foldl (ws : List Word) (init : Rat) :
    ws.foldl (fun sum word =>
        sum + min 1 ((word.word.length : Rat) * (1 / 10) /
          (word.stop - word.start))) init =
      init + (ws.map wordConfidence).sum := by
  induction ws generalizing init with
  | nil => simp
  | cons a t ih =>
    simp only [List.foldl_cons, List.map_cons, List.sum_cons, ih, wordConfidence]
    ring

lemma calculateTranscriptionConfidence_form (ws : List Word)
    (h : ws.length ≠ 0) :
    calculateTranscriptionConfidence ws =
      max 0 (min 1 ((ws.map wordConfidence).sum / (ws.length : Rat))) := by
  simp only [calculateTranscriptionConfidence, if_neg h]
  rw [confidence_foldl, zero_add]

lemma runFeedback_le (events : List Bool) :
    ∀ s : Session, s.successfulPredictions ≤ s.totalPredictions →
      (runFeedback events s).successfulPredictions ≤
        (runFeedback events s).totalPredictions := by
  induction events with
  | nil => intro s hs; exact hs
  | cons a t ih =>
    intro s hs
    refine ih _ ?_
    simp only [recordFeedback]
    split <;> omega

lemma findSession_mapSession {sid : String} {f : Session → Session}
    (hf : ∀ s, (f s).id = s.id) :
    ∀ (db : SessionDb) (s : Session), findSession db sid = some s →
      findSession (mapSession db sid f) sid = some (f s) := by
  intro db
  induction db with
  | nil => intro s hs; simp [findSession] at hs
  | cons a t ih =>
    intro s hs
    by_cases h : a.id = sid
    · simp [findSession, List.find?_cons, h] at hs
      subst hs
      simp [findSession, mapSession, List.find?_cons, hf a, h]
    · simp [findSession, List.find?_cons, h] at hs
      simp [findSession, mapSession, List.find?_cons, h]
      simpa [findSession, mapSession] using ih s hs

lemma runPipeline_counts (st : UserState) (d : SpeechData) (o : Oracles) :
    ((runPipeline st d o).1.countP Event.isComplete = 0) ∧
    ((runPipeline st d o).1.countP Event.isError = 0) := by
  unfold runPipeline
  rcases ht : o.transcribe with msg | w <;> simp only [transcribeAudio]
  · exact ⟨rfl, rfl⟩
  · rcases ha : o.analyze with msg | a <;> simp only [processMultimodalInput]
    · exact ⟨rfl, rfl⟩
    · rcases hv : o.visual with vmsg | url <;>
      rcases hu : o.sessionUpdate with umsg | uu <;>
      simp only [generateVisualAid] <;>
      split_ifs <;>
      exact ⟨rfl, rfl⟩

/-! ## Claims -/

/-- C5: for every sequence of appends and sweeps the per-user conversation
context never exceeds 10 entries and an overflowing append drops the
oldest entry; a sweep keeps exactly the entries younger than the
maximum age, deletes every per-user list that became empty, and at
maximum age 0 (all stored timestamps being in the past) empties the
whole store. -/
theorem context_cap_and_sweep :
    (∀ (ops : List ContextOp) (userId : String),
      (getContext (runContextOps ops) userId).length ≤ 10) ∧
    (∀ (ctx : List ContextEntry) (d : ContextEntry), ctx.length = 10 →
      updateConversationContext ctx d = ctx.drop 1 ++ [d]) ∧
    (∀ (now maxAge : Int) (m : ContextMap),
      ∀ p ∈ cleanupContexts now maxAge m,
        ¬ p.2 = [] ∧ ∀ e ∈ p.2, now - e.timestamp < maxAge) ∧
    (∀ (now : Int) (m : ContextMap),
      (∀ p ∈ m, ∀ e ∈ p.2, e.timestamp ≤ now) →
        cleanupContexts now 0 m = []) := by
  refine ⟨?_, ?_, ?_, ?_⟩
  · intro ops userId
    unfold getContext
    cases hf : (runContextOps ops).find? (fun p => p.1 = userId) with
    | none => simp
    | some p =>
      exact ctxBounded_runContextOps ops p (List.mem_of_find?_eq_some hf)
  · intro ctx d h
    simp only [updateConversationContext]
    rw [if_pos (by simp [h])]
    rw [List.drop_append_eq_append_drop]
    simp [h]
  · intro now maxAge m p hp
    constructor
    · have := List.of_mem_filter hp
      simpa using this
    · rcases mem_cleanupContexts hp with ⟨q, _, hpq⟩
      intro e he
      rw [hpq] at he
      have he2 : e ∈ q.2.filter (fun item => decide (now - item.timestamp < maxAge)) := he
      have h3 := List.of_mem_filter (p := fun (item : ContextEntry) => decide (now - item.timestamp < maxAge)) he2
      exact of_decide_eq_true h3
  · intro now m h
    simp only [cleanupContexts]
    rw [List.filter_eq_nil_iff]
    intro p hp
    rcases List.mem_map.mp hp with ⟨q, hq, hpq⟩
    simp only [← hpq, decide_eq_true_eq, Decidable.not_not, List.isEmpty_iff]
    rw [List.filter_eq_nil_iff]
    intro e he
    have := h q hq e he
    simp only [decide_eq_true_eq]
    omega

/-- C1: a `process_speech` submission finding the per-user flag set is
answered by `processing_busy` alone, with no pipeline event and no
state change; otherwise the flag is set first and the turn pipeline
runs on the flag-set state. -/
theorem single_flight_guard (st : UserState) (d : SpeechData) (o : Oracles) :
    (st.processing = true →
      handleProcessSpeech st d o =
        ([Event.processing_busy "Still processing previous input"], st)) ∧
    (st.processing = false →
      handleProcessSpeech st d o =
        finishTurn o.completeTime
          (runPipeline { st with processing := true } d o)) := by
  constructor <;> intro h <;> simp [handleProcessSpeech, h]

/-- C2: every accepted turn emits `processing_complete` exactly once,
carrying the terminal timestamp, and ends with the per-user flag
released — whatever the stage oracles returned. -/
theorem processing_complete_guaranteed (st : UserState) (d : SpeechData)
    (o : Oracles) (h : st.processing = false) :
    ((handleProcessSpeech st d o).1.countP Event.isComplete = 1) ∧
    (Event.processing_complete o.completeTime ∈ (handleProcessSpeech st d o).1) ∧
    ((handleProcessSpeech st d o).2.processing = false) := by
  obtain ⟨hc, _⟩ := runPipeline_counts { st with processing := true } d o
  rcases hr : runPipeline { st with processing := true } d o with ⟨evs, st2, err⟩
  rw [hr] at hc
  have hh : handleProcessSpeech st d o = finishTurn o.completeTime (evs, st2, err) := by
    simp [handleProcessSpeech, h, hr]
  rw [hh]
  refine ⟨?_, ?_, ?_⟩
  · cases err <;>
      simp [finishTurn, List.countP_append, List.countP_cons, hc,
        Event.isComplete]
  · cases err <;> simp [finishTurn]
  · simp [finishTurn]

/-- C3: when transcription fails for an accepted turn, the turn emits
exactly `processing_started`, `processing_complete` and the
`processing_error` carrying the rethrown transcription error — no
transcription/prediction/visual/audio event — and leaves the user state
(flag cleared, context untouched) exactly as before the turn. -/
theorem transcription_failure_terminates_turn (st : UserState)
    (d : SpeechData) (o : Oracles) (msg : String) (h : st.processing = false)
    (ht : o.transcribe = Except.error msg) :
    handleProcessSpeech st d o =
      ([Event.processing_started d.timestamp,
        Event.processing_complete o.completeTime,
        Event.processing_error ("Speech transcription failed: " ++ msg)],
        st) := by
  obtain ⟨p, ctxs, sid⟩ := st
  simp only [UserState.processing] at h
  subst h
  simp [handleProcessSpeech, finishTurn, runPipeline, transcribeAudio, ht]

/-- C4: for an accepted turn whose transcription and analysis succeed
with a suggested visual concept, a successful generation produces the
core events exactly in the order `processing_started`,
`transcription_ready`, `predictions_ready`, `visual_aid_ready`,
`processing_complete`; a failed generation produces no
`visual_aid_ready`, while `predictions_ready` and
`processing_complete` still fire. -/
theorem visual_aid_event_order (st : UserState) (d : SpeechData)
    (o : Oracles) (w : WhisperResponse) (a : Analysis)
    (h : st.processing = false) (ht : o.transcribe = Except.ok w)
    (ha : o.analyze = Except.ok a) (hsug : a.visualAidSuggested = true)
    (hcon : jsTruthy a.visualConcept = true) :
    (∀ url, o.visual = Except.ok url →
      (handleProcessSpeech st d o).1.filter Event.isCore =
        [Event.processing_started d.timestamp,
         Event.transcription_ready w.text
           (calculateTranscriptionConfidence w.words) w.words,
         Event.predictions_ready a.predictions a.confidence a.intendedMeaning
           a.assistanceLevel a.emotionalContext,
         Event.visual_aid_ready url (a.visualConcept.getD "")
           (buildDallePrompt (a.visualConcept.getD "")),
         Event.processing_complete o.completeTime]) ∧
    (∀ vmsg, o.visual = Except.error vmsg →
      ((handleProcessSpeech st d o).1.countP Event.isVisualAid = 0 ∧
       (handleProcessSpeech st d o).1.countP Event.isPredictions = 1 ∧
       Event.processing_complete o.completeTime ∈
         (handleProcessSpeech st d o).1)) := by
  constructor
  · intro url hv
    simp only [handleProcessSpeech, h, if_neg, Bool.false_eq_true,
      not_false_iff, if_false, runPipeline, transcribeAudio, ht, ha,
      processMultimodalInput, generateVisualAid, hv, hsug, hcon, finishTurn]
    split_ifs <;>
      rcases hu : o.sessionUpdate with umsg | uu <;>
      simp_all [Event.isCore]
  · intro vmsg hv
    simp only [handleProcessSpeech, h, if_neg, Bool.false_eq_true,
      not_false_iff, if_false, runPipeline, transcribeAudio, ht, ha,
      processMultimodalInput, generateVisualAid, hv, hsug, hcon, finishTurn]
    split_ifs <;>
      rcases hu : o.sessionUpdate with umsg | uu <;>
      simp_all [Event.isVisualAid, Event.isPredictions, List.countP_append,
        List.countP_cons]

/-- C10: whenever an accepted turn reports a `processing_error`, the
trace ends with `processing_complete` immediately followed by that
`processing_error` — the guaranteed cleanup (flag release and terminal
event) happens before the failure is reported — and the resulting
state has the flag cleared, so a new turn is accepted from then on. -/
theorem cleanup_precedes_error_report (st : UserState) (d : SpeechData)
    (o : Oracles) (msg : String) (h : st.processing = false)
    (he : Event.processing_error msg ∈ (handleProcessSpeech st d o).1) :
    ((handleProcessSpeech st d o).1 =
      ((handleProcessSpeech st d o).1.take
          ((handleProcessSpeech st d o).1.length - 2)) ++
        [Event.processing_complete o.completeTime,
         Event.processing_error msg]) ∧
    (((handleProcessSpeech st d o).1.take
        ((handleProcessSpeech st d o).1.length - 2)).countP
      Event.isComplete = 0) ∧
    (((handleProcessSpeech st d o).1.take
        ((handleProcessSpeech st d o).1.length - 2)).countP
      Event.isError = 0) ∧
    ((handleProcessSpeech st d o).2.processing = false) := by
  obtain ⟨hc, herr⟩ := runPipeline_counts { st with processing := true } d o
  rcases hr : runPipeline { st with processing := true } d o with ⟨evs, st2, err⟩
  rw [hr] at hc herr
  have hh : handleProcessSpeech st d o = finishTurn o.completeTime (evs, st2, err) := by
    simp [handleProcessSpeech, h, hr]
  rw [hh] at he ⊢
  have hnoerr : ∀ e ∈ evs, ¬ (Event.isError e = true) :=
    List.countP_eq_zero.mp herr
  cases err with
  | none =>
    exfalso
    simp only [finishTurn, List.mem_append] at he
    rcases he with (he | he) | he
    · exact hnoerr _ he rfl
    · simp at he
    · simp at he
  | some m =>
    have hmsg : msg = m := by
      simp only [finishTurn, List.mem_append] at he
      rcases he with (he | he) | he
      · exact absurd rfl (hnoerr _ he)
      · simp at he
      · simpa using he
    subst hmsg
    have hshape : (finishTurn o.completeTime (evs, st2, some msg)).1 =
        evs ++ [Event.processing_complete o.completeTime,
          Event.processing_error msg] := by
      simp [finishTurn]
    have hlen : (finishTurn o.completeTime (evs, st2, some msg)).1.length - 2 =
        evs.length := by
      rw [hshape]; simp
    have htake : (finishTurn o.completeTime (evs, st2, some msg)).1.take
        ((finishTurn o.completeTime (evs, st2, some msg)).1.length - 2) = evs := by
      rw [hlen, hshape, List.take_left]
    refine ⟨?_, ?_, ?_, ?_⟩
    · rw [htake, hshape]
    · rw [htake]; exact hc
    · rw [htake]; exact herr
    · simp [finishTurn]

/-- C6: starting from the zero counters of a freshly created session,
`successfulPredictions ≤ totalPredictions` holds after any sequence of
feedback events; one recorded feedback raises `totalPredictions` by
one and `successfulPredictions` by one exactly when the prediction was
accepted, and `processFeedback` applies exactly that update to the
addressed session row. -/
theorem feedback_counter_invariant :
    (∀ (events : List Bool) (id userId : String) (startedAt : Int),
      (runFeedback events (startNewSession id userId startedAt)).successfulPredictions ≤
        (runFeedback events (startNewSession id userId startedAt)).totalPredictions) ∧
    (∀ (a : Bool) (s : Session),
      (recordFeedback a s).totalPredictions = s.totalPredictions + 1 ∧
      (recordFeedback a s).successfulPredictions =
        s.successfulPredictions + (if a then 1 else 0)) ∧
    (∀ (sessionId : String) (a : Bool) (db : SessionDb) (s : Session),
      findSession db sessionId = some s →
        findSession (processFeedback sessionId a db) sessionId =
          some (recordFeedback a s)) := by
  refine ⟨?_, ?_, ?_⟩
  · intro events id userId startedAt
    exact runFeedback_le events _ (by simp [startNewSession])
  · intro a s
    constructor <;> simp [recordFeedback]
  · intro sessionId a db s hs
    simp only [processFeedback, hs]
    exact findSession_mapSession (f := recordFeedback a) (fun s => rfl) db s hs

/-- C9: the derived transcription confidence always lies in [0,1], is 0
for an empty word list, and otherwise is the clamped average over the
words of the per-word capped ratio of expected duration (0.1 s per
character) to observed duration. -/
theorem transcription_confidence_bounds (words : List Word) :
    0 ≤ calculateTranscriptionConfidence words ∧
    calculateTranscriptionConfidence words ≤ 1 ∧
    (words = [] → calculateTranscriptionConfidence words = 0) ∧
    (¬ words = [] →
      calculateTranscriptionConfidence words =
        max 0 (min 1 ((words.map wordConfidence).sum / (words.length : Rat)))) := by
  refine ⟨?_, ?_, ?_, ?_⟩
  · by_cases h : words.length = 0
    · simp [calculateTranscriptionConfidence, h]
    · rw [calculateTranscriptionConfidence_form words h]
      exact le_max_left _ _
  · by_cases h : words.length = 0
    · simp [calculateTranscriptionConfidence, h]
    · rw [calculateTranscriptionConfidence_form words h]
      exact max_le (by norm_num) (min_le_left _ _)
  · intro h
    simp [calculateTranscriptionConfidence, h]
  · intro h
    exact calculateTranscriptionConfidence_form words
      (by simpa [List.length_eq_zero] using h)

/-- C7 (amended): the explicit HTTP session-update route is
ownership-checked — when the sessionId does not belong to the
requesting user it answers NotFound and leaves the session table
untouched, and it applies the update only on an ownership hit; the
per-turn pipeline update, by contrast, carries no requesting user and
succeeds for any existing session id. -/
theorem session_update_ownership (userId sessionId : String)
    (body : UpdateBody) (db : SessionDb) :
    (findOwnedSession db sessionId userId = none →
      updateSessionRoute userId sessionId body db =
        (RouteStatus.notFound, db)) ∧
    (∀ s, findOwnedSession db sessionId userId = some s →
      (updateSessionRoute userId sessionId body db).1 = RouteStatus.ok) ∧
    (∀ (t : String) (p : List String) (c : Rat) (s : Session),
      findSession db sessionId = some s →
      updateSessionData sessionId t p c db =
        Except.ok (mapSession db sessionId (fun s =>
          { s with transcript := t, predictions := p, confidence := c }))) := by
  refine ⟨?_, ?_, ?_⟩
  · intro h
    simp [updateSessionRoute, h]
  · intro s h
    simp [updateSessionRoute, h]
  · intro t p c s h
    simp [updateSessionData, h]

/-- C7 counterexample: the per-turn session update of the pipeline
(`SocketService.updateSessionData`) performs no ownership check — on a
table holding only a session owned by "userB" it succeeds and mutates
the row instead of failing with NotFound, whoever submitted the
turn. -/
theorem pipeline_update_ignores_ownership :
    otherUsersSession.userId = "userB" ∧
    updateSessionData "s1" "new" ["p"] 1 [otherUsersSession] =
      Except.ok [{ otherUsersSession with
        transcript := "new", predictions := ["p"], confidence := 1 }] ∧
    ¬ ([{ otherUsersSession with
        transcript := "new", predictions := ["p"], confidence := 1 }] =
      [otherUsersSession]) := by
  refine ⟨rfl, by rfl, by decide⟩

/-- C8 (amended): the HTTP end-session route triggers the
Memory-Garden artwork generation exactly when the submitted
`completedSentences` list (defaulted to empty) has at least 3 entries,
and an artwork failure never fails the route; the socket `end_session`
path contains no artwork call at all. -/
theorem artwork_generation_threshold (userId sessionId : String)
    (completedSentences : Option (List String)) (endedAt : Int)
    (artResult : Except String String) (db : SessionDb) :
    (∀ s, findOwnedSession db sessionId userId = some s →
      ((endSessionRoute userId sessionId completedSentences endedAt
            artResult db).1.artworkTriggered =
          decide ((completedSentences.getD []).length ≥ 3) ∧
        (endSessionRoute userId sessionId completedSentences endedAt
            artResult db).1.status = RouteStatus.ok)) ∧
    (∀ (b : Bool) (db' : SessionDb),
      endSession sessionId endedAt db = Except.ok (b, db') → b = false) := by
  constructor
  · intro s h
    simp only [endSessionRoute, h]
    split_ifs with hlen <;> simp [hlen]
  · intro b db' hb
    cases hf : findSession db sessionId <;> simp [endSession, hf] at hb
    exact hb.1

/-- C8 counterexample: ending a session that holds three completed
sentences through the socket path does not trigger artwork generation,
although the threshold of 3 is met. -/
theorem socket_end_session_no_artwork :
    richSession.completedSentences.length ≥ 3 ∧
    endSession "s2" 5000 [richSession] =
      Except.ok (false, [{ richSession with
        endedAt := some 5000, duration := some 5 }]) := by
  refine ⟨by decide, by rfl⟩

/-! ## Witnesses -/

theorem single_flight_guard_witness :
    handleProcessSpeech
        { processing := true, contexts := [], sessionId := none }
        { timestamp := 5 } sampleOracles =
      ([Event.processing_busy "Still processing previous input"],
        { processing := true, contexts := [], sessionId := none }) :=
  (single_flight_guard _ _ _).1 rfl

theorem processing_complete_guaranteed_witness :
    ((handleProcessSpeech
        { processing := false, contexts := [], sessionId := none }
        { timestamp := 5 } sampleOracles).1.countP Event.isComplete = 1) ∧
    (Event.processing_complete sampleOracles.completeTime ∈
      (handleProcessSpeech
        { processing := false, contexts := [], sessionId := none }
        { timestamp := 5 } sampleOracles).1) ∧
    ((handleProcessSpeech
        { processing := false, contexts := [], sessionId := none }
        { timestamp := 5 } sampleOracles).2.processing = false) :=
  processing_complete_guaranteed _ _ _ rfl

theorem transcription_failure_terminates_turn_witness :
    handleProcessSpeech
        { processing := false, contexts := [], sessionId := none }
        { timestamp := 5 } failOracles =
      ([Event.processing_started 5,
        Event.processing_complete failOracles.completeTime,
        Event.processing_error ("Speech transcription failed: " ++ "boom")],
        { processing := false, contexts := [], sessionId := none }) :=
  transcription_failure_terminates_turn _ _ _ "boom" rfl rfl

theorem visual_aid_event_order_witness :
    (handleProcessSpeech
        { processing := false, contexts := [], sessionId := none }
        { timestamp := 5 } sampleOracles).1.filter Event.isCore =
      [Event.processing_started 5,
       Event.transcription_ready sampleWhisper.text
         (calculateTranscriptionConfidence sampleWhisper.words)
         sampleWhisper.words,
       Event.predictions_ready sampleAnalysis.predictions
         sampleAnalysis.confidence sampleAnalysis.intendedMeaning
         sampleAnalysis.assistanceLevel sampleAnalysis.emotionalContext,
       Event.visual_aid_ready "imgurl" (sampleAnalysis.visualConcept.getD "")
         (buildDallePrompt (sampleAnalysis.visualConcept.getD "")),
       Event.processing_complete sampleOracles.completeTime] :=
  (visual_aid_event_order _ _ _ sampleWhisper sampleAnalysis rfl rfl rfl rfl
    (by decide)).1 "imgurl" rfl

theorem cleanup_precedes_error_report_witness :
    ((handleProcessSpeech
        { processing := false, contexts := [], sessionId := none }
        { timestamp := 5 } failOracles).1 =
      ((handleProcessSpeech
          { processing := false, contexts := [], sessionId := none }
          { timestamp := 5 } failOracles).1.take
          ((handleProcessSpeech
              { processing := false, contexts := [], sessionId := none }
              { timestamp := 5 } failOracles).1.length - 2)) ++
        [Event.processing_complete failOracles.completeTime,
         Event.processing_error ("Speech transcription failed: " ++ "boom")]) ∧
    (((handleProcessSpeech
        { processing := false, contexts := [], sessionId := none }
        { timestamp := 5 } failOracles).1.take
        ((handleProcessSpeech
            { processing := false, contexts := [], sessionId := none }
            { timestamp := 5 } failOracles).1.length - 2)).countP
      Event.isComplete = 0) ∧
    (((handleProcessSpeech
        { processing := false, contexts := [], sessionId := none }
        { timestamp := 5 } failOracles).1.take
        ((handleProcessSpeech
            { processing := false, contexts := [], sessionId := none }
            { timestamp := 5 } failOracles).1.length - 2)).countP
      Event.isError = 0) ∧
    ((handleProcessSpeech
        { processing := false, contexts := [], sessionId := none }
        { timestamp := 5 } failOracles).2.processing = false) :=
  cleanup_precedes_error_report _ _ _
    ("Speech transcription failed: " ++ "boom") rfl (by decide)

theorem context_cap_and_sweep_witness :
    (updateConversationContext (List.replicate 10 sampleEntry) sampleEntry =
      (List.replicate 10 sampleEntry).drop 1 ++ [sampleEntry]) ∧
    ((¬ [sampleEntry] = []) ∧
      ∀ e ∈ [sampleEntry], (100 : Int) - e.timestamp < 1000) ∧
    (cleanupContexts 100 0 [("u", [sampleEntry])] = []) :=
  ⟨context_cap_and_sweep.2.1 (List.replicate 10 sampleEntry) sampleEntry
      (by decide),
   context_cap_and_sweep.2.2.1 100 1000 [("u", [sampleEntry])]
      ("u", [sampleEntry]) (by decide),
   context_cap_and_sweep.2.2.2 100 [("u", [sampleEntry])] (by decide)⟩

theorem feedback_counter_invariant_witness :
    findSession (processFeedback "s3" true [feedbackSession]) "s3" =
      some (recordFeedback true feedbackSession) :=
  feedback_counter_invariant.2.2 "s3" true [feedbackSession]
    feedbackSession (by decide)

theorem transcription_confidence_bounds_witness :
    calculateTranscriptionConfidence [] = 0 ∧
    calculateTranscriptionConfidence [sampleWord] =
      max 0 (min 1 (([sampleWord].map wordConfidence).sum /
        (([sampleWord].length : Nat) : Rat))) :=
  ⟨(transcription_confidence_bounds []).2.2.1 rfl,
   (transcription_confidence_bounds [sampleWord]).2.2.2 (by decide)⟩

theorem session_update_ownership_witness :
    updateSessionRoute "userA" "s1"
        { transcript := none, predictions := none,
          completedSentences := none, confidence := none }
        [otherUsersSession] =
      (RouteStatus.notFound, [otherUsersSession]) :=
  (session_update_ownership "userA" "s1"
    { transcript := none, predictions := none,
      completedSentences := none, confidence := none }
    [otherUsersSession]).1 (by decide)

theorem artwork_generation_threshold_witness :
    ((endSessionRoute "userB" "s2" (some ["a", "b"]) 5000
        (Except.ok "art") [richSession]).1.artworkTriggered =
      decide (((some ["a", "b"] : Option (List String)).getD []).length ≥ 3)) ∧
    ((endSessionRoute "userB" "s2" (some ["a", "b"]) 5000
        (Except.ok "art") [richSession]).1.status = RouteStatus.ok) :=
  (artwork_generation_threshold "userB" "s2" (some ["a", "b"]) 5000
    (Except.ok "art") [richSession]).1 richSession (by decide)

end CognitiveEcho
